import Mathlib

/-!
Shallow embedding of `src/lambda.py` (SubmissionEventHandler).

The handler receives one SNS event carrying one embedded JSON message,
extracts seven fields, performs an unconditional HTTP GET of the submission
URL (src/lambda.py:39), decodes a base64 credential blob and parses it as
JSON (src/lambda.py:41-52), and then dispatches on the `status` field inside
a `try` block (src/lambda.py:66-123) whose `except Exception` clause
(src/lambda.py:125-128) logs and calls `send_email` with 8 positional
arguments although `send_email` declares 11 required positional parameters.

External services (HTTP fetch, GCS blob upload, SMTP transport, DynamoDB
put) are modelled by a `World` of per-invocation outcomes; every observable
side effect is recorded in an effect trace, and the Python exception flow is
modelled by `Except PyErr`: a run returns its trace together with either
`.ok ()` (the invocation returned normally) or `.error e` (it raised `e`).
-/

deriving instance DecidableEq for Except

/-- A JSON scalar as it occurs in the embedded message: the seven extracted
fields are strings except `attempt`, which the data model declares integer. -/
inductive Jval where
  | s (v : String)
  | n (v : Int)
deriving DecidableEq, Repr

/-- Python `str()` of a message field, as used by f-strings and `.format`. -/
def jstr : Jval → String
  | .s v => v
  | .n v => toString v

/-- Result of `json.loads` applied to the embedded message string: either the
string is not valid JSON (raises `json.JSONDecodeError`) or it yields an
object, modelled as an association list of its fields. -/
inductive JsonParse where
  | malformed
  | obj (fields : List (String × Jval))
deriving DecidableEq, Repr

/-- The inbound trigger payload: either `event['Records'][0]['Sns']['Message']`
is absent (the subscript raises) or it holds the embedded message string,
represented by that string's parse outcome. -/
inductive SnsEvent where
  | noMessage
  | withMessage (message : JsonParse)
deriving DecidableEq, Repr

/-- Python dict lookup `message[k]`: `none` models a `KeyError`. -/
def getField : List (String × Jval) → String → Option Jval
  | [], _ => none
  | (k, v) :: rest, key => if k = key then some v else getField rest key

/-- Python exceptions that can escape `lambda_handler` or `send_email`. -/
inductive PyErr where
  | keyError (k : String)
  | jsonDecodeError
  | requestsError
  | smtpConnectError
  | dynamoError
  | typeError
deriving DecidableEq, Repr

/-- Outcome of `requests.get(url)`: the call raises, or returns a response
with a status code and a body. -/
inductive FetchRes where
  | raise
  | ok (code : Nat) (content : String)
deriving DecidableEq, Repr

/-- Outcome of `s.login(...)` followed by `s.sendmail(...)` once the SMTP
connection is open: both succeed, or one raises `smtplib.SMTPException`
(the only failure type the source's `try` in `send_email` catches). -/
inductive SmtpRes where
  | ok
  | smtpExc
deriving DecidableEq, Repr

/-- Per-invocation outcomes of the external collaborators, fixed before the
run: the fetch result per URL, validity of the credential JSON, whether the
blob upload / SMTP connect / DynamoDB put succeed, and the wall-clock
timestamp string `datetime.datetime.now().strftime("%Y%m%d%H%M%S")`. -/
structure World where
  fetch : String → FetchRes
  credsJsonOk : Bool
  uploadOk : Bool
  smtpConnectOk : Bool
  smtpSend : SmtpRes
  dynamoOk : Bool
  timestamp : String

/-- The environment-provided configuration (src/lambda.py:57-64, 170),
assumed present per the spec's external-interface section. -/
structure Env where
  gcpBucket : String
  fromAddress : String
  mailgunUser : String
  mailgunKey : String
  dynamoTable : String

/-- One observable side effect on an external collaborator. -/
inductive Effect where
  | fetch (url : String)
  | blobWrite (path : String) (content : String)
  | emailSend (toAddr : String) (subject : String) (body : String)
  | dynamoPut (id : String) (assignmentId : String) (submissionUrl : String)
      (filePath : String) (timestamp : String)
deriving DecidableEq, Repr

def isFetch : Effect → Bool
  | .fetch _ => true
  | _ => false

def isStore : Effect → Bool
  | .blobWrite _ _ => true
  | _ => false

def isEmail : Effect → Bool
  | .emailSend _ _ _ => true
  | _ => false

def isPut : Effect → Bool
  | .dynamoPut _ _ _ _ _ => true
  | _ => false

def countFetches (t : List Effect) : Nat := (t.filter isFetch).length
def countStores (t : List Effect) : Nat := (t.filter isStore).length
def countEmails (t : List Effect) : Nat := (t.filter isEmail).length
def countPuts (t : List Effect) : Nat := (t.filter isPut).length

/-- The fixed template body of every email (src/lambda.py:137-148):
`"Hello {first} {last},\n\nYour submission with assignment ID {aid} has been
processed\n{body}\nAttempt  - {attempt}\n\nRegards,\nTeam Assessment Inc."`. -/
def message_body (first_name last_name assignment_id : Jval) (body : String)
    (attempt : Jval) : String :=
  "Hello " ++ jstr first_name ++ " " ++ jstr last_name ++
  ",\n\nYour submission with assignment ID " ++ jstr assignment_id ++
  " has been processed\n" ++ body ++ "\nAttempt  - " ++ jstr attempt ++
  "\n\nRegards,\nTeam Assessment Inc."

/-- Function `send_email` (src/lambda.py:131-166). It composes the template body,
opens the SMTP connection (src/lambda.py:157) OUTSIDE any `try` — a
connection failure raises to the caller — then inside `try` logs in and
sends, catching only `smtplib.SMTPException` (src/lambda.py:164-165), which
is logged and swallowed. Returns the effect trace and the raise/return
outcome. -/
def send_email (w : World) (mailgun_user_name mailgun_key : String)
    (user_email first_name last_name submission_url assignment_id attempt : Jval)
    (source_email subject body : String) : List Effect × Except PyErr Unit :=
  let mb := message_body first_name last_name assignment_id body attempt
  if w.smtpConnectOk then
    match w.smtpSend with
    | .ok => ([.emailSend (jstr user_email) subject mb], .ok ())
    | .smtpExc => ([], .ok ())
  else ([], .error .smtpConnectError)

/-- Function `update_dynamodb` (src/lambda.py:169-182): builds the composite
partition key `{user_email}#{assignment_id}#{timestamp}` and issues one
`put_item`; a transport failure of the put raises to the caller. -/
def update_dynamodb (w : World) (user_email assignment_id submission_url : Jval)
    (full_path timestamp : String) : List Effect × Except PyErr Unit :=
  let partition_key := jstr user_email ++ "#" ++ jstr assignment_id ++ "#" ++ timestamp
  if w.dynamoOk then
    ([.dynamoPut partition_key (jstr assignment_id) (jstr submission_url)
        full_path timestamp], .ok ())
  else ([], .error .dynamoError)

/-- The `except Exception` clause of `lambda_handler` (src/lambda.py:125-128):
it logs the error and then evaluates
`send_email(mailgun_user_name, mailgun_key, user_email, submission_url,
assignment_id, source_email, "Submission Error - Canvas", "...")` — 8
positional arguments for the 11 required positional parameters of
`send_email` (src/lambda.py:131-132). Under Python calling conventions this
call raises `TypeError` before the callee body runs, so no email effect is
produced and the `TypeError` propagates out of `lambda_handler` (the clause
is not nested in any further `try`). -/
def except_handler (effs : List Effect) : List Effect × Except PyErr Unit :=
  (effs, .error .typeError)

/-- One notify-only dispatch arm (src/lambda.py:98-121): a single
`send_email` call with the arm's subject and body; if it raises (SMTP
connection failure), control moves to `except_handler`. -/
def notifyOnly (w : World) (env : Env) (effs0 : List Effect)
    (user_email first_name last_name submission_url assignment_id attempt : Jval)
    (subject body : String) : List Effect × Except PyErr Unit :=
  let r := send_email w env.mailgunUser env.mailgunKey user_email first_name
      last_name submission_url assignment_id attempt env.fromAddress
      subject body
  match r.2 with
  | .ok _ => (effs0 ++ r.1, .ok ())
  | .error _ => except_handler (effs0 ++ r.1)

/-- Function `lambda_handler` (src/lambda.py:14-128). Steps, in source order:
extract the embedded message string (line 19, raises if absent); parse it as
JSON (line 23, raises on malformed input); extract the seven fields in
order `status, submissionUrl, userEmail, assignmentId, first_name,
last_name, attempt` (lines 27-33, `KeyError` on the first missing one);
unconditionally `requests.get(submission_url)` (line 39, its result unused);
decode and parse the credential blob (lines 41-52, re-raises
`json.JSONDecodeError` on malformed JSON); then the `try` block dispatches
on `status` (lines 66-123) with `raise ValueError` on the fall-through;
every exception inside `try` reaches `except_handler`. -/
def lambda_handler (w : World) (env : Env) (ev : SnsEvent) :
    List Effect × Except PyErr Unit :=
  match ev with
  | .noMessage => ([], .error (.keyError "Records"))
  | .withMessage .malformed => ([], .error .jsonDecodeError)
  | .withMessage (.obj message) =>
    match getField message "status" with
    | none => ([], .error (.keyError "status"))
    | some status =>
    match getField message "submissionUrl" with
    | none => ([], .error (.keyError "submissionUrl"))
    | some submission_url =>
    match getField message "userEmail" with
    | none => ([], .error (.keyError "userEmail"))
    | some user_email =>
    match getField message "assignmentId" with
    | none => ([], .error (.keyError "assignmentId"))
    | some assignment_id =>
    match getField message "first_name" with
    | none => ([], .error (.keyError "first_name"))
    | some first_name =>
    match getField message "last_name" with
    | none => ([], .error (.keyError "last_name"))
    | some last_name =>
    match getField message "attempt" with
    | none => ([], .error (.keyError "attempt"))
    | some attempt =>
      let url := jstr submission_url
      let effs0 := [Effect.fetch url]
      match w.fetch url with
      | .raise => (effs0, .error .requestsError)
      | .ok _ _ =>
        if w.credsJsonOk = false then (effs0, .error .jsonDecodeError)
        else
          if status = Jval.s "SUCCESS" then
            let effs1 := effs0 ++ [Effect.fetch url]
            match w.fetch url with
            | .raise => except_handler effs1
            | .ok code content =>
              if code ≠ 200 ∨ content = "" then except_handler effs1
              else
                let timestamp := w.timestamp
                let full_path := jstr user_email ++ "/" ++ jstr assignment_id ++
                  "/" ++ "submission_" ++ jstr attempt ++ "_" ++ timestamp ++ ".zip"
                if w.uploadOk = false then except_handler effs1
                else
                  let effs2 := effs1 ++ [Effect.blobWrite full_path content]
                  let success_body :=
                    "We are happy to notify you that your assignment submission has been received and accepted.\n\nSubmission Path  - " ++ full_path
                  let er := send_email w env.mailgunUser env.mailgunKey user_email
                      first_name last_name submission_url assignment_id attempt
                      env.fromAddress "Submission Received Successfully"
                      success_body
                  match er.2 with
                  | .error _ => except_handler (effs2 ++ er.1)
                  | .ok _ =>
                    let dr := update_dynamodb w user_email assignment_id
                        submission_url full_path timestamp
                    match dr.2 with
                    | .error _ => except_handler (effs2 ++ er.1 ++ dr.1)
                    | .ok _ => (effs2 ++ er.1 ++ dr.1, .ok ())
          else if status = Jval.s "NO_CONTENT" then
            notifyOnly w env effs0 user_email first_name last_name
              submission_url assignment_id attempt
              "Submission Failed - Empty File"
              "Your Submission could not be accepted as the file does not have any content"
          else if status = Jval.s "INVALID_URL" then
            notifyOnly w env effs0 user_email first_name last_name
              submission_url assignment_id attempt
              "Submission Failed - Invalid URL"
              "Your Submission could not be accepted as the URL submitted does not contain a valid zip file"
          else if status = Jval.s "MAX_ATTEMPTS" then
            notifyOnly w env effs0 user_email first_name last_name
              submission_url assignment_id attempt
              "Submission Failed - max attempts reached"
              "Your Submission could not be accepted as you have reached maximum number of attempts"
          else if status = Jval.s "DEADLINE_PASSED" then
            notifyOnly w env effs0 user_email first_name last_name
              submission_url assignment_id attempt
              "Submission Failed - Deadline Passed"
              "Your Submission could not be accepted as the has passed"
          else
            except_handler effs0

/-- The message fields of a well-formed event, in the order the handler
extracts them. -/
def mkFields (status url email aid fn ln : String) (att : Int) :
    List (String × Jval) :=
  [("status", .s status), ("submissionUrl", .s url), ("userEmail", .s email),
   ("assignmentId", .s aid), ("first_name", .s fn), ("last_name", .s ln),
   ("attempt", .n att)]

/-- A well-formed SNS event whose embedded message parses and carries all
seven required fields. -/
def mkEvent (status url email aid fn ln : String) (att : Int) : SnsEvent :=
  .withMessage (.obj (mkFields status url email aid fn ln att))

/-- The seven required message fields (src/lambda.py:27-33). -/
def requiredFields : List String :=
  ["status", "submissionUrl", "userEmail", "assignmentId",
   "first_name", "last_name", "attempt"]

/-- A fully successful world: fetch yields 200 with body `"data"`, the
credential JSON parses, and the upload, SMTP transport and DynamoDB put all
succeed. -/
def wGood : World :=
  { fetch := fun _ => .ok 200 "data", credsJsonOk := true, uploadOk := true,
    smtpConnectOk := true, smtpSend := .ok, dynamoOk := true,
    timestamp := "20231207010203" }

/-- A concrete environment for sample runs. -/
def env0 : Env :=
  { gcpBucket := "bkt", fromAddress := "noreply@demo.tld",
    mailgunUser := "mg", mailgunKey := "key", dynamoTable := "tbl" }

/-- Worlds used as concrete deviations from `wGood` in particular runs. -/
def wNoUpload : World := { wGood with uploadOk := false }

def wNoDynamo : World := { wGood with dynamoOk := false }

def wNoSmtp : World := { wGood with smtpConnectOk := false }

def wBadCreds : World := { wGood with credsJsonOk := false }

def wFetch404 : World := { wGood with fetch := fun _ => .ok 404 "x" }

def wFetchEmpty : World := { wGood with fetch := fun _ => .ok 200 "" }

/-- Evaluation of the field lookups on a well-formed message. -/
theorem gf_status (s u e a f l : String) (n : Int) :
    getField (mkFields s u e a f l n) "status" = some (.s s) := rfl

theorem gf_url (s u e a f l : String) (n : Int) :
    getField (mkFields s u e a f l n) "submissionUrl" = some (.s u) := rfl

theorem gf_email (s u e a f l : String) (n : Int) :
    getField (mkFields s u e a f l n) "userEmail" = some (.s e) := rfl

theorem gf_aid (s u e a f l : String) (n : Int) :
    getField (mkFields s u e a f l n) "assignmentId" = some (.s a) := rfl

theorem gf_first (s u e a f l : String) (n : Int) :
    getField (mkFields s u e a f l n) "first_name" = some (.s f) := rfl

theorem gf_last (s u e a f l : String) (n : Int) :
    getField (mkFields s u e a f l n) "last_name" = some (.s l) := rfl

theorem gf_att (s u e a f l : String) (n : Int) :
    getField (mkFields s u e a f l n) "attempt" = some (.n n) := rfl

/-- The trace of one `send_email` call is empty or a single email effect. -/
theorem send_email_fst (w : World) (mu mk : String)
    (ue fn ln su aid att : Jval) (se subj body : String) :
    (send_email w mu mk ue fn ln su aid att se subj body).1 = [] ∨
    (send_email w mu mk ue fn ln su aid att se subj body).1 =
      [.emailSend (jstr ue) subj (message_body fn ln aid body att)] := by
  unfold send_email
  by_cases h : w.smtpConnectOk
  · cases hs : w.smtpSend <;> simp [h, hs]
  · simp [h]

/-- The trace of one `update_dynamodb` call is empty or a single put. -/
theorem update_dynamodb_fst (w : World) (ue aid su : Jval) (fp ts : String) :
    (update_dynamodb w ue aid su fp ts).1 = [] ∨
    (update_dynamodb w ue aid su fp ts).1 =
      [.dynamoPut (jstr ue ++ "#" ++ jstr aid ++ "#" ++ ts) (jstr aid)
        (jstr su) fp ts] := by
  unfold update_dynamodb
  by_cases h : w.dynamoOk <;> simp [h]

/-- C9: for every world and environment, an event whose embedded message
string is not parseable as JSON makes the invocation raise the JSON decode
error with an empty effect trace — in particular before any email (or any
other side effect) is attempted. -/
theorem C9_malformed_message_fails_before_any_email (w : World) (env : Env) :
    lambda_handler w env (.withMessage .malformed) =
      ([], .error .jsonDecodeError) := rfl

/-- C7 counterexample: a failure to open the SMTP connection
(src/lambda.py:157 sits outside the `try` of `send_email`) propagates to the
caller, refuting the claim that every mail-transport failure (connection or
send) is caught internally. -/
theorem C7_counterexample :
    (send_email wNoSmtp "mg" "key" (.s "a@b.c") (.s "Jo") (.s "Doe")
      (.s "http://u") (.s "A1") (.n 1) "noreply@demo.tld" "S" "B").2 =
      .error .smtpConnectError := rfl

/-- C7 amended: once the SMTP connection opens, `send_email` returns
normally to its caller whatever the login/send outcome — a send failure
(`smtplib.SMTPException`) is caught and logged internally and never
propagated; only a connection-open failure propagates. -/
theorem C7_amended_send_failures_never_propagate (w : World) (mu mk : String)
    (ue fn ln su aid att : Jval) (se subj body : String)
    (h : w.smtpConnectOk = true) :
    (send_email w mu mk ue fn ln su aid att se subj body).2 = .ok () := by
  unfold send_email
  cases hs : w.smtpSend <;> simp [h, hs]

/-- C7 witness: the amended theorem applied at a concrete call. -/
theorem C7_witness :
    (send_email wGood "mg" "key" (.s "a@b.c") (.s "Jo") (.s "Doe")
      (.s "http://u") (.s "A1") (.n 1) "noreply@demo.tld" "S" "B").2 =
      .ok () :=
  C7_amended_send_failures_never_propagate wGood "mg" "key" (.s "a@b.c")
    (.s "Jo") (.s "Doe") (.s "http://u") (.s "A1") (.n 1) "noreply@demo.tld"
    "S" "B" rfl

/-- Concrete events exercising the dispatch arms. -/
def evUnknown : SnsEvent := mkEvent "PENDING" "http://u" "a@b.c" "A1" "Jo" "Doe" 3

def evBogus : SnsEvent := mkEvent "BOGUS" "http://u" "a@b.c" "A1" "Jo" "Doe" 3

def evSuccess : SnsEvent := mkEvent "SUCCESS" "http://u" "a@b.c" "A1" "Jo" "Doe" 3

def evNoContent : SnsEvent := mkEvent "NO_CONTENT" "http://u" "a@b.c" "A1" "Jo" "Doe" 3

/-- C1: the claim fails on the code. When dispatch raises — here shown both
for the fall-through unknown-status `ValueError` (src/lambda.py:123) and for
a storage failure during the SUCCESS workflow — the `except` clause's
`send_email` call (src/lambda.py:127, 8 positional arguments for 11
required parameters) raises `TypeError` before any error email is composed,
and that `TypeError` propagates out of `lambda_handler`: the trace carries
no email effect and the invocation raises instead of returning normally. -/
theorem C1_error_path_raises_typeerror_and_sends_no_email :
    (lambda_handler wGood env0 evUnknown =
      ([.fetch "http://u"], .error .typeError) ∧
     countEmails (lambda_handler wGood env0 evUnknown).1 = 0) ∧
    (lambda_handler wNoUpload env0 evSuccess =
      ([.fetch "http://u", .fetch "http://u"], .error .typeError) ∧
     countEmails (lambda_handler wNoUpload env0 evSuccess).1 = 0) := by
  refine ⟨⟨rfl, rfl⟩, ⟨rfl, rfl⟩⟩

/-- C2: the claim fails on the code. For an unrecognized status string, and
for a SUCCESS event whose fetch returns a non-200 code or an empty body, no
store or record write occurs — but no generic error email is sent either,
and the invocation raises `TypeError` (from the arity-mismatched
`send_email` call in the `except` clause, src/lambda.py:127) instead of
completing without raising. -/
theorem C2_bad_cases_send_no_email_and_raise :
    (countStores (lambda_handler wGood env0 evBogus).1 = 0 ∧
     countPuts (lambda_handler wGood env0 evBogus).1 = 0 ∧
     countEmails (lambda_handler wGood env0 evBogus).1 = 0 ∧
     (lambda_handler wGood env0 evBogus).2 = .error .typeError) ∧
    (countStores (lambda_handler wFetch404 env0 evSuccess).1 = 0 ∧
     countPuts (lambda_handler wFetch404 env0 evSuccess).1 = 0 ∧
     countEmails (lambda_handler wFetch404 env0 evSuccess).1 = 0 ∧
     (lambda_handler wFetch404 env0 evSuccess).2 = .error .typeError) ∧
    (countStores (lambda_handler wFetchEmpty env0 evSuccess).1 = 0 ∧
     countPuts (lambda_handler wFetchEmpty env0 evSuccess).1 = 0 ∧
     countEmails (lambda_handler wFetchEmpty env0 evSuccess).1 = 0 ∧
     (lambda_handler wFetchEmpty env0 evSuccess).2 = .error .typeError) := by
  refine ⟨⟨rfl, rfl, rfl, rfl⟩, ⟨rfl, rfl, rfl, rfl⟩, ⟨rfl, rfl, rfl, rfl⟩⟩

/-- The status-specific subject lines of the four notify-only dispatch arms
(src/lambda.py:98-121). -/
def failSubject (s : String) : String :=
  if s = "NO_CONTENT" then "Submission Failed - Empty File"
  else if s = "INVALID_URL" then "Submission Failed - Invalid URL"
  else if s = "MAX_ATTEMPTS" then "Submission Failed - max attempts reached"
  else if s = "DEADLINE_PASSED" then "Submission Failed - Deadline Passed"
  else ""

/-- The status-specific body fragments of the four notify-only dispatch arms
(src/lambda.py:98-121), verbatim from the source. -/
def failBody (s : String) : String :=
  if s = "NO_CONTENT" then
    "Your Submission could not be accepted as the file does not have any content"
  else if s = "INVALID_URL" then
    "Your Submission could not be accepted as the URL submitted does not contain a valid zip file"
  else if s = "MAX_ATTEMPTS" then
    "Your Submission could not be accepted as you have reached maximum number of attempts"
  else if s = "DEADLINE_PASSED" then
    "Your Submission could not be accepted as the has passed"
  else ""

/-- C3: for every valid SUCCESS event whose fetch returns 200 with a
non-empty body and whose downstream calls (credential parse, upload, SMTP,
DynamoDB) succeed, the run writes exactly one blob at
`{userEmail}/{assignmentId}/submission_{attempt}_{timestamp}.zip`, issues
exactly one record put whose FilePath and Timestamp equal that path and
timestamp, sends exactly one "accepted" email, and returns normally. -/
theorem C3_success_workflow (w : World) (env : Env)
    (url email aid fn ln : String) (att : Int) (c : String)
    (hf : w.fetch url = .ok 200 c) (hc : c ≠ "")
    (hcreds : w.credsJsonOk = true) (hup : w.uploadOk = true)
    (hconn : w.smtpConnectOk = true) (hsend : w.smtpSend = .ok)
    (hdyn : w.dynamoOk = true) :
    countStores (lambda_handler w env (mkEvent "SUCCESS" url email aid fn ln att)).1 = 1 ∧
    Effect.blobWrite
        (email ++ "/" ++ aid ++ "/" ++ "submission_" ++ toString att ++ "_" ++ w.timestamp ++ ".zip") c ∈
      (lambda_handler w env (mkEvent "SUCCESS" url email aid fn ln att)).1 ∧
    countPuts (lambda_handler w env (mkEvent "SUCCESS" url email aid fn ln att)).1 = 1 ∧
    Effect.dynamoPut (email ++ "#" ++ aid ++ "#" ++ w.timestamp) aid url
        (email ++ "/" ++ aid ++ "/" ++ "submission_" ++ toString att ++ "_" ++ w.timestamp ++ ".zip")
        w.timestamp ∈
      (lambda_handler w env (mkEvent "SUCCESS" url email aid fn ln att)).1 ∧
    countEmails (lambda_handler w env (mkEvent "SUCCESS" url email aid fn ln att)).1 = 1 ∧
    Effect.emailSend email "Submission Received Successfully"
        (message_body (.s fn) (.s ln) (.s aid)
          ("We are happy to notify you that your assignment submission has been received and accepted.\n\nSubmission Path  - " ++
            (email ++ "/" ++ aid ++ "/" ++ "submission_" ++ toString att ++ "_" ++ w.timestamp ++ ".zip"))
          (.n att)) ∈
      (lambda_handler w env (mkEvent "SUCCESS" url email aid fn ln att)).1 ∧
    (lambda_handler w env (mkEvent "SUCCESS" url email aid fn ln att)).2 = .ok () := by
  unfold lambda_handler mkEvent
  simp only [gf_status, gf_url, gf_email, gf_aid, gf_first, gf_last, gf_att,
    jstr, hf, hcreds, hup, hconn, hsend, hdyn]
  simp [send_email, update_dynamodb, hconn, hsend, hdyn, hc, jstr,
    countStores, countPuts, countEmails, isStore, isPut, isEmail,
    List.filter, message_body]

/-- C3 witness: the theorem applied at a concrete world and event. -/
theorem C3_witness :
    countStores (lambda_handler wGood env0 (mkEvent "SUCCESS" "http://u" "a@b.c" "A1" "Jo" "Doe" 2)).1 = 1 ∧
    Effect.blobWrite
        ("a@b.c" ++ "/" ++ "A1" ++ "/" ++ "submission_" ++ toString (2 : Int) ++ "_" ++ wGood.timestamp ++ ".zip") "data" ∈
      (lambda_handler wGood env0 (mkEvent "SUCCESS" "http://u" "a@b.c" "A1" "Jo" "Doe" 2)).1 ∧
    countPuts (lambda_handler wGood env0 (mkEvent "SUCCESS" "http://u" "a@b.c" "A1" "Jo" "Doe" 2)).1 = 1 ∧
    Effect.dynamoPut ("a@b.c" ++ "#" ++ "A1" ++ "#" ++ wGood.timestamp) "A1" "http://u"
        ("a@b.c" ++ "/" ++ "A1" ++ "/" ++ "submission_" ++ toString (2 : Int) ++ "_" ++ wGood.timestamp ++ ".zip")
        wGood.timestamp ∈
      (lambda_handler wGood env0 (mkEvent "SUCCESS" "http://u" "a@b.c" "A1" "Jo" "Doe" 2)).1 ∧
    countEmails (lambda_handler wGood env0 (mkEvent "SUCCESS" "http://u" "a@b.c" "A1" "Jo" "Doe" 2)).1 = 1 ∧
    Effect.emailSend "a@b.c" "Submission Received Successfully"
        (message_body (.s "Jo") (.s "Doe") (.s "A1")
          ("We are happy to notify you that your assignment submission has been received and accepted.\n\nSubmission Path  - " ++
            ("a@b.c" ++ "/" ++ "A1" ++ "/" ++ "submission_" ++ toString (2 : Int) ++ "_" ++ wGood.timestamp ++ ".zip"))
          (.n 2)) ∈
      (lambda_handler wGood env0 (mkEvent "SUCCESS" "http://u" "a@b.c" "A1" "Jo" "Doe" 2)).1 ∧
    (lambda_handler wGood env0 (mkEvent "SUCCESS" "http://u" "a@b.c" "A1" "Jo" "Doe" 2)).2 = .ok () :=
  C3_success_workflow wGood env0 "http://u" "a@b.c" "A1" "Jo" "Doe" 2 "data"
    rfl (by decide) rfl rfl rfl rfl rfl

/-- C8: for every event with one of the four recognized failure statuses,
provided the run reaches the dispatch (the unconditional pre-dispatch fetch
returns and the credential JSON parses) and the mail transport succeeds: no
object-store write and no record-store write occurs, exactly one failure
email with the status-specific subject and body is sent, and the invocation
returns normally. -/
theorem C8_failure_statuses_notify_only (w : World) (env : Env)
    (s url email aid fn ln : String) (att : Int) (cd : Nat) (ct : String)
    (hs : s = "NO_CONTENT" ∨ s = "INVALID_URL" ∨ s = "MAX_ATTEMPTS" ∨
      s = "DEADLINE_PASSED")
    (hf : w.fetch url = .ok cd ct) (hcreds : w.credsJsonOk = true)
    (hconn : w.smtpConnectOk = true) (hsend : w.smtpSend = .ok) :
    countStores (lambda_handler w env (mkEvent s url email aid fn ln att)).1 = 0 ∧
    countPuts (lambda_handler w env (mkEvent s url email aid fn ln att)).1 = 0 ∧
    countEmails (lambda_handler w env (mkEvent s url email aid fn ln att)).1 = 1 ∧
    Effect.emailSend email (failSubject s)
        (message_body (.s fn) (.s ln) (.s aid) (failBody s) (.n att)) ∈
      (lambda_handler w env (mkEvent s url email aid fn ln att)).1 ∧
    (lambda_handler w env (mkEvent s url email aid fn ln att)).2 = .ok () := by
  rcases hs with hs | hs | hs | hs <;> subst hs <;>
    unfold lambda_handler mkEvent <;>
    simp only [gf_status, gf_url, gf_email, gf_aid, gf_first, gf_last,
      gf_att, jstr, hf, hcreds] <;>
    simp [notifyOnly, send_email, hconn, hsend, failSubject, failBody,
      countStores, countPuts, countEmails, isStore, isPut, isEmail,
      List.filter, jstr]

/-- C8 witness: the theorem applied at a concrete NO_CONTENT event. -/
theorem C8_witness :
    countStores (lambda_handler wGood env0 (mkEvent "NO_CONTENT" "http://u" "a@b.c" "A1" "Jo" "Doe" 3)).1 = 0 ∧
    countPuts (lambda_handler wGood env0 (mkEvent "NO_CONTENT" "http://u" "a@b.c" "A1" "Jo" "Doe" 3)).1 = 0 ∧
    countEmails (lambda_handler wGood env0 (mkEvent "NO_CONTENT" "http://u" "a@b.c" "A1" "Jo" "Doe" 3)).1 = 1 ∧
    Effect.emailSend "a@b.c" (failSubject "NO_CONTENT")
        (message_body (.s "Jo") (.s "Doe") (.s "A1") (failBody "NO_CONTENT") (.n 3)) ∈
      (lambda_handler wGood env0 (mkEvent "NO_CONTENT" "http://u" "a@b.c" "A1" "Jo" "Doe" 3)).1 ∧
    (lambda_handler wGood env0 (mkEvent "NO_CONTENT" "http://u" "a@b.c" "A1" "Jo" "Doe" 3)).2 = .ok () :=
  C8_failure_statuses_notify_only wGood env0 "NO_CONTENT" "http://u" "a@b.c"
    "A1" "Jo" "Doe" 3 200 "data" (Or.inl rfl) rfl rfl rfl rfl

theorem countFetches_append (a b : List Effect) :
    countFetches (a ++ b) = countFetches a + countFetches b := by
  simp [countFetches, List.filter_append]

theorem countStores_append (a b : List Effect) :
    countStores (a ++ b) = countStores a + countStores b := by
  simp [countStores, List.filter_append]

theorem countEmails_append (a b : List Effect) :
    countEmails (a ++ b) = countEmails a + countEmails b := by
  simp [countEmails, List.filter_append]

theorem countPuts_append (a b : List Effect) :
    countPuts (a ++ b) = countPuts a + countPuts b := by
  simp [countPuts, List.filter_append]

theorem send_email_no_put (w : World) (mu mk : String)
    (ue fn ln su aid att : Jval) (se subj body : String) :
    countPuts (send_email w mu mk ue fn ln su aid att se subj body).1 = 0 := by
  rcases send_email_fst w mu mk ue fn ln su aid att se subj body with h | h <;>
    simp [h, countPuts, List.filter, isPut]

theorem send_email_no_store (w : World) (mu mk : String)
    (ue fn ln su aid att : Jval) (se subj body : String) :
    countStores (send_email w mu mk ue fn ln su aid att se subj body).1 = 0 := by
  rcases send_email_fst w mu mk ue fn ln su aid att se subj body with h | h <;>
    simp [h, countStores, List.filter, isStore]

theorem send_email_no_fetch (w : World) (mu mk : String)
    (ue fn ln su aid att : Jval) (se subj body : String) :
    countFetches (send_email w mu mk ue fn ln su aid att se subj body).1 = 0 := by
  rcases send_email_fst w mu mk ue fn ln su aid att se subj body with h | h <;>
    simp [h, countFetches, List.filter, isFetch]

theorem update_dynamodb_no_store (w : World) (ue aid su : Jval) (fp ts : String) :
    countStores (update_dynamodb w ue aid su fp ts).1 = 0 := by
  rcases update_dynamodb_fst w ue aid su fp ts with h | h <;>
    simp [h, countStores, List.filter, isStore]

theorem notifyOnly_no_put (w : World) (env : Env) (effs0 : List Effect)
    (ue fn ln su aid att : Jval) (subj body : String) :
    countPuts (notifyOnly w env effs0 ue fn ln su aid att subj body).1 =
      countPuts effs0 := by
  rcases hse : (send_email w env.mailgunUser env.mailgunKey ue fn ln su aid
      att env.fromAddress subj body).2 with e | u <;>
    simp [notifyOnly, hse, except_handler, countPuts_append, send_email_no_put]

theorem notifyOnly_no_store (w : World) (env : Env) (effs0 : List Effect)
    (ue fn ln su aid att : Jval) (subj body : String) :
    countStores (notifyOnly w env effs0 ue fn ln su aid att subj body).1 =
      countStores effs0 := by
  rcases hse : (send_email w env.mailgunUser env.mailgunKey ue fn ln su aid
      att env.fromAddress subj body).2 with e | u <;>
    simp [notifyOnly, hse, except_handler, countStores_append,
      send_email_no_store]

theorem notifyOnly_no_fetch (w : World) (env : Env) (effs0 : List Effect)
    (ue fn ln su aid att : Jval) (subj body : String) :
    countFetches (notifyOnly w env effs0 ue fn ln su aid att subj body).1 =
      countFetches effs0 := by
  rcases hse : (send_email w env.mailgunUser env.mailgunKey ue fn ln su aid
      att env.fromAddress subj body).2 with e | u <;>
    simp [notifyOnly, hse, except_handler, countFetches_append,
      send_email_no_fetch]

/-- C4 counterexample: with a world in which the blob upload succeeds but
the DynamoDB put fails, a SUCCESS run writes the StoredSubmission and never
writes the SubmissionRecord — the two are not created together or not at
all, refuting the claimed impossibility. -/
theorem C4_counterexample :
    countStores (lambda_handler wNoDynamo env0 evSuccess).1 = 1 ∧
    countPuts (lambda_handler wNoDynamo env0 evSuccess).1 = 0 ∧
    (lambda_handler wNoDynamo env0 evSuccess).2 = .error .typeError := by
  refine ⟨rfl, rfl, rfl⟩

/-- C4 amended: one direction of the invariant does hold in every world and
for every event — a SubmissionRecord is never created without its
StoredSubmission, because the record put (src/lambda.py:95) is only reached
after the blob upload (src/lambda.py:78) has succeeded; a StoredSubmission
without a record remains possible when the put fails. -/
theorem C4_amended_record_implies_store (w : World) (env : Env)
    (ev : SnsEvent) (h : 0 < countPuts (lambda_handler w env ev).1) :
    0 < countStores (lambda_handler w env ev).1 := by
  revert h
  rcases ev with _ | (_ | message)
  · simp [lambda_handler, countPuts, List.filter]
  · simp [lambda_handler, countPuts, List.filter]
  · simp only [lambda_handler]
    repeat' split
    all_goals
      try simp only [except_handler, notifyOnly_no_put, notifyOnly_no_store,
        countPuts_append, countStores_append, send_email_no_put,
        send_email_no_store, update_dynamodb_no_store]
    all_goals
      simp [countPuts, countStores, List.filter, isPut, isStore,
        except_handler]

/-- C4 witness: the amended theorem applied at a run that does create the
record (all downstream calls succeed). -/
theorem C4_witness :
    0 < countStores (lambda_handler wGood env0 evSuccess).1 :=
  C4_amended_record_implies_store wGood env0 evSuccess (by decide)

/-- The head of a notify-only arm's trace is the head of the effects
accumulated before it. -/
theorem notifyOnly_head (w : World) (env : Env) (e0 : Effect)
    (rest : List Effect) (ue fn ln su aid att : Jval) (subj body : String) :
    (notifyOnly w env (e0 :: rest) ue fn ln su aid att subj body).1.head? =
      some e0 := by
  rcases hse : (send_email w env.mailgunUser env.mailgunKey ue fn ln su aid
      att env.fromAddress subj body).2 with e | u <;>
    simp [notifyOnly, hse, except_handler]

/-- C5 counterexample: for a NO_CONTENT event (a recognized non-SUCCESS
status) a fetch of submissionUrl is performed — it is the first effect of
the run (src/lambda.py:39, before the status dispatch) — refuting the
claims that no fetch happens for the four non-SUCCESS statuses and that
dispatch precedes any content fetch. -/
theorem C5_counterexample :
    countFetches (lambda_handler wGood env0 evNoContent).1 = 1 ∧
    (lambda_handler wGood env0 evNoContent).1.head? =
      some (.fetch "http://u") := by
  refine ⟨rfl, rfl⟩

/-- C5 amended: every event that parses with all seven fields performs one
unconditional fetch of submissionUrl before the dispatch — it is the first
effect of every such run — and for any status other than SUCCESS the
dispatch performs no further fetch, so the run's trace carries exactly that
one fetch; only the SUCCESS workflow fetches again. -/
theorem C5_amended_predispatch_fetch (w : World) (env : Env)
    (s url email aid fn ln : String) (att : Int) (h : s ≠ "SUCCESS") :
    (lambda_handler w env (mkEvent s url email aid fn ln att)).1.head? =
      some (.fetch url) ∧
    countFetches (lambda_handler w env (mkEvent s url email aid fn ln att)).1 = 1 := by
  have hs : ¬ (Jval.s s = Jval.s "SUCCESS") := by simpa using h
  unfold lambda_handler mkEvent
  simp only [gf_status, gf_url, gf_email, gf_aid, gf_first, gf_last, gf_att,
    jstr]
  rcases hw : w.fetch url with _ | ⟨cd, ct⟩
  · simp [countFetches, List.filter, isFetch]
  · by_cases hcr : w.credsJsonOk = false
    · simp [hcr, countFetches, List.filter, isFetch]
    · simp only [if_neg hcr, if_neg hs]
      repeat' split
      all_goals
        try simp only [notifyOnly_head, notifyOnly_no_fetch, except_handler]
      all_goals
        simp [countFetches, List.filter, isFetch]

/-- C5 witness: the amended theorem applied at a concrete MAX_ATTEMPTS
event. -/
theorem C5_witness :
    (lambda_handler wGood env0 (mkEvent "MAX_ATTEMPTS" "http://u" "a@b.c" "A1" "Jo" "Doe" 1)).1.head? =
      some (.fetch "http://u") ∧
    countFetches (lambda_handler wGood env0 (mkEvent "MAX_ATTEMPTS" "http://u" "a@b.c" "A1" "Jo" "Doe" 1)).1 = 1 :=
  C5_amended_predispatch_fetch wGood env0 "MAX_ATTEMPTS" "http://u" "a@b.c"
    "A1" "Jo" "Doe" 1 (by decide)

/-- C6 counterexample: with a credential blob whose JSON is malformed, the
invocation does raise the decode error, but only after the unconditional
content fetch of src/lambda.py:39 has already executed — the run's trace
holds one fetch effect — refuting the claim that it raises before any
workflow step executes. -/
theorem C6_counterexample :
    lambda_handler wBadCreds env0 evSuccess =
      ([.fetch "http://u"], .error .jsonDecodeError) ∧
    countFetches (lambda_handler wBadCreds env0 evSuccess).1 = 1 := by
  refine ⟨rfl, rfl⟩

/-- C6 amended: for every event, when the credential blob decodes to
malformed JSON the invocation raises and performs no store write, no email
send and no record write — every effect in its trace is a content fetch
(at most the one unconditional pre-dispatch fetch, which precedes the
credential parse in the source). -/
theorem C6_amended_bad_creds_raise_after_fetch_only (w : World) (env : Env)
    (ev : SnsEvent) (h : w.credsJsonOk = false) :
    (lambda_handler w env ev).1.all isFetch = true ∧
    ∃ err, (lambda_handler w env ev).2 = .error err := by
  rcases ev with _ | (_ | message)
  · simp [lambda_handler]
  · simp [lambda_handler]
  · simp only [lambda_handler]
    repeat' split
    all_goals simp_all [isFetch]

/-- C6 witness: the amended theorem applied at a concrete run with
malformed credential JSON. -/
theorem C6_witness :
    (lambda_handler wBadCreds env0 evSuccess).1.all isFetch = true ∧
    ∃ err, (lambda_handler wBadCreds env0 evSuccess).2 = .error err :=
  C6_amended_bad_creds_raise_after_fetch_only wBadCreds env0 evSuccess rfl

/-- C10: for every message that parses as a JSON object but lacks one of
the seven required fields, the invocation raises a `KeyError` for a
required field with an empty effect trace — before any content fetch,
storage access, email send or record write. -/
theorem C10_missing_field_raises_keyerror (w : World) (env : Env)
    (fields : List (String × Jval))
    (h : ∃ k ∈ requiredFields, getField fields k = none) :
    ∃ k ∈ requiredFields,
      lambda_handler w env (.withMessage (.obj fields)) =
        ([], .error (.keyError k)) := by
  rcases h1 : getField fields "status" with _ | v1
  · exact ⟨"status", by simp [requiredFields], by simp [lambda_handler, h1]⟩
  rcases h2 : getField fields "submissionUrl" with _ | v2
  · exact ⟨"submissionUrl", by simp [requiredFields],
      by simp [lambda_handler, h1, h2]⟩
  rcases h3 : getField fields "userEmail" with _ | v3
  · exact ⟨"userEmail", by simp [requiredFields],
      by simp [lambda_handler, h1, h2, h3]⟩
  rcases h4 : getField fields "assignmentId" with _ | v4
  · exact ⟨"assignmentId", by simp [requiredFields],
      by simp [lambda_handler, h1, h2, h3, h4]⟩
  rcases h5 : getField fields "first_name" with _ | v5
  · exact ⟨"first_name", by simp [requiredFields],
      by simp [lambda_handler, h1, h2, h3, h4, h5]⟩
  rcases h6 : getField fields "last_name" with _ | v6
  · exact ⟨"last_name", by simp [requiredFields],
      by simp [lambda_handler, h1, h2, h3, h4, h5, h6]⟩
  rcases h7 : getField fields "attempt" with _ | v7
  · exact ⟨"attempt", by simp [requiredFields],
      by simp [lambda_handler, h1, h2, h3, h4, h5, h6, h7]⟩
  rcases h with ⟨k, hk, hnone⟩
  simp only [requiredFields, List.mem_cons, List.not_mem_nil, or_false] at hk
  rcases hk with rfl | rfl | rfl | rfl | rfl | rfl | rfl <;> simp_all

/-- C10 witness: the theorem applied at the empty message object, which
lacks every required field. -/
theorem C10_witness :
    ∃ k ∈ requiredFields,
      lambda_handler wGood env0 (.withMessage (.obj [])) =
        ([], .error (.keyError k)) :=
  C10_missing_field_raises_keyerror wGood env0 []
    ⟨"status", by simp [requiredFields], rfl⟩
